import Mathlib

/-!
Shallow embedding of the two LLM-backed agent classes of NOMAD-CAMELS:
`MeasurementControlAgent` (src/nomad_camels/gui/agents/measurement_control_agent.py)
and `ProtocolAgent` (src/nomad_camels/gui/agents/protocol_agent.py).

Python dictionaries are embedded as insertion-ordered association lists,
the hosted language model (`self.agent.run`) and the host application's
`run_protocol` entry point are oracles that may raise (`Except`), and every
side effect (a model call, a host `run_protocol` call, a started monitoring
thread, a handler invocation) is recorded in an explicit effect trace.
`datetime.now().strftime(...)` is an opaque timestamp string passed in.
-/

/-! Python dictionaries as insertion-ordered association lists. -/

/-- Python `dict` with string keys: an insertion-ordered association list. -/
abbrev PyDict (α : Type) : Type := List (String × α)

/-- Python `d.get(key)` / `d[key]`: the value at the first matching key. -/
def dget {α : Type} : PyDict α → String → Option α
  | [], _ => none
  | (k, v) :: d, key => if k = key then some v else dget d key

/-- Python `key in d`. -/
def dmem {α : Type} (d : PyDict α) (key : String) : Bool :=
  (dget d key).isSome

/-- Python `d[key] = val`: replace an existing key in place, else append. -/
def dinsert {α : Type} : PyDict α → String → α → PyDict α
  | [], key, val => [(key, val)]
  | (k, v) :: d, key, val =>
    if k = key then (key, val) :: d else (k, v) :: dinsert d key val

/-- Python `del d[key]`: remove the entry with the first matching key. -/
def derase {α : Type} : PyDict α → String → PyDict α
  | [], _ => []
  | (k, v) :: d, key => if k = key then d else (k, v) :: derase d key

/-- Python `list(d.keys())`. -/
def dkeys {α : Type} (d : PyDict α) : List String :=
  d.map (fun kv => kv.1)

/-- Python truthiness of a dict: non-empty. -/
def dictTruthy {α : Type} (d : PyDict α) : Bool :=
  !d.isEmpty

/-- Python `dict(d)`: a fresh dictionary holding the same entries in order. -/
def dictCopy {α : Type} (d : PyDict α) : PyDict α :=
  d.foldr (fun kv acc => kv :: acc) []

/-! Python string helpers. -/

/-- Python truthiness of an optional string: present and non-empty. -/
def pyTruthy : Option String → Bool
  | none => false
  | some s => s ≠ ""

/-- ASCII lower-casing of one character, as Python `str.lower` does on ASCII. -/
def pyLowerChar (c : Char) : Char :=
  if 65 ≤ c.toNat ∧ c.toNat ≤ 90 then Char.ofNat (c.toNat + 32) else c

/-- Python `s.lower()`. -/
def pyLower (s : String) : String :=
  ⟨s.data.map pyLowerChar⟩

/-- Python `needle in haystack`: substring containment. -/
def strContains (haystack needle : String) : Bool :=
  (List.range (haystack.data.length + 1)).any
    (fun i => needle.data.isPrefixOf (haystack.data.drop i))

/-- Python `repr` of a plain string (no quotes or escapes inside). -/
def pyRepr (s : String) : String :=
  "'" ++ s ++ "'"

/-- Join a list of strings with a separator, as Python `sep.join(xs)`. -/
def joinSep (sep : String) : List String → String
  | [] => ""
  | [x] => x
  | x :: y :: xs => x ++ sep ++ joinSep sep (y :: xs)

/-- Python `str` of a list of plain strings: `['a', 'b']`. -/
def pyListRepr (ks : List String) : String :=
  "[" ++ joinSep ", " (ks.map pyRepr) ++ "]"

/-! The data model shared by both agents. -/

/-- The `system_state` mapping inside the context bundle. Optional fields
model `dict.get` with and without defaults: `active_sample` and `intent`
are looked up both with and without a default in the source, so absence
is kept observable. -/
structure SystemState where
  intent : Option String := none
  protocols : PyDict String := []
  instruments : PyDict String := []
  active_sample : Option String := none
  protocol_running : Bool := false
  current_protocol : Option String := none
  execution_progress : Nat := 0
  deriving DecidableEq

/-- The context bundle passed to `process_request`. Each conversation-history
entry is reduced to its `intent` value (the only key the source reads). -/
structure Context where
  system_state : SystemState := {}
  conversation_history : List (Option String) := []
  deriving DecidableEq

/-- The extracted-parameter mapping passed to `process_request`; one optional
field per key the source reads. `interval` is kept as its printed form since
the source only stores and formats it. -/
structure Params where
  protocol_name : Option String := none
  condition : Option String := none
  device : Option String := none
  parameter : Option String := none
  threshold : Option String := none
  interval : Option String := none
  monitor_id : Option String := none
  deriving DecidableEq

/-- A record of `self.active_monitors[monitor_id]`; unused keys stay `""`. -/
structure MonitorRecord where
  type : String
  protocol : String := ""
  condition : String := ""
  device : String := ""
  parameter : String := ""
  interval : String := ""
  created : String
  status : String
  deriving DecidableEq

/-- Mutable state of a `MeasurementControlAgent`: `self.active_monitors` and
`self.monitoring_threads` (threads reduced to their registry keys). -/
structure MCState where
  active_monitors : PyDict MonitorRecord := []
  monitoring_threads : PyDict Unit := []
  deriving DecidableEq

/-- The handlers `MeasurementControlAgent.process_request` dispatches to. -/
inductive MCHandler where
  | inspectProtocol
  | conditionalExecution
  | monitorDevices
  | stopMonitoring
  | analyzeMeasurementRequest
  deriving DecidableEq

/-- The handlers `ProtocolAgent.process_request` dispatches to. -/
inductive PAHandler where
  | runProtocol
  | listProtocols
  | inspectProtocol
  | protocolStatus
  | generalProtocolQuery
  deriving DecidableEq

/-- Observable side effects of one request, in order. -/
inductive Effect where
  | modelCall (prompt : String)
  | hostRunProtocol (protocolName : String)
  | threadStarted (monitorId : String)
  | mcHandlerRun (h : MCHandler)
  | paHandlerRun (h : PAHandler)
  deriving DecidableEq

/-- The hosted model, `self.agent.run`: takes a prompt, returns text or
raises (the error carries Python `str(e)`). -/
def Model : Type := String → Except String String

/-- The host application's optional `run_protocol` entry point. -/
def HostRun : Type := String → Except String Unit

/-- Result of one `MeasurementControlAgent` handler or request: the returned
text, the agent state afterwards, and the trace of side effects. -/
structure MCResult where
  response : String
  state : MCState
  effects : List Effect
  deriving DecidableEq

/-- Result of one `ProtocolAgent` handler or request (that agent keeps no
registry state). -/
structure PAResult where
  response : String
  effects : List Effect
  deriving DecidableEq

/-! MeasurementControlAgent (measurement_control_agent.py). -/

/-- Prompt built by `MeasurementControlAgent._inspect_protocol`. -/
def mcInspectionPrompt (userInput protocolName protocolData : String)
    (systemState : SystemState) : String :=
  "The user wants to inspect protocol '" ++ protocolName ++ "':\n\"" ++ userInput
    ++ "\"\n\nProtocol data: " ++ protocolData
    ++ "\nAvailable instruments: " ++ pyListRepr (dkeys systemState.instruments)
    ++ "\nCurrent sample: " ++ systemState.active_sample.getD "None"
    ++ "\n\nProvide a comprehensive protocol analysis including overview, steps, "
    ++ "instruments, time, resources, safety, optimization, dependencies."

/-- Handler `_inspect_protocol` of the measurement control agent. -/
def mcInspectProtocol (model : Model) (userInput : String) (params : Params)
    (ctx : Context) (st : MCState) : MCResult :=
  let protocolName := params.protocol_name
  let systemState := ctx.system_state
  let availableProtocols := systemState.protocols
  if ! pyTruthy protocolName then
    if dictTruthy availableProtocols then
      { response := "📋 I can inspect any of these protocols: "
          ++ pyListRepr (dkeys availableProtocols)
          ++ ". Which one would you like to analyze?"
        state := st, effects := [] }
    else
      { response := "📋 No protocols are currently loaded. Please load a protocol first."
        state := st, effects := [] }
  else
    let pname := protocolName.getD ""
    if ! dmem availableProtocols pname then
      { response := "❌ Protocol '" ++ pname ++ "' not found. Available protocols: "
          ++ pyListRepr (dkeys availableProtocols)
        state := st, effects := [] }
    else
      let protocolData := (dget availableProtocols pname).getD ""
      let prompt := mcInspectionPrompt userInput pname protocolData systemState
      match model prompt with
      | Except.ok resp =>
        { response := "🔍 Protocol Analysis for '" ++ pname ++ "':\n\n" ++ resp
          state := st, effects := [Effect.modelCall prompt] }
      | Except.error e =>
        { response := "I encountered an error while inspecting the protocol: " ++ e
          state := st, effects := [Effect.modelCall prompt] }

/-- Function `_extract_condition_from_text`: a no-op passthrough. -/
def mcExtractConditionFromText (text : String) : String := text

/-- The trigger keywords scanned for in `_setup_conditional_execution`. -/
def mcConditionKeywords : List String :=
  ["until", "when", "if", "reaches", "below", "above"]

/-- The condition after parameter extraction and the keyword-based fallback
in `_setup_conditional_execution`: if the extracted condition is empty and
the lowered input holds a trigger keyword, the raw input becomes the
condition. -/
def mcEffectiveCondition (params : Params) (userInput : String) : String :=
  let condition := params.condition.getD ""
  if condition = "" && mcConditionKeywords.any (fun k => strContains (pyLower userInput) k)
  then mcExtractConditionFromText userInput
  else condition

/-- Prompt built by `_setup_conditional_execution`. -/
def mcCondSetupPrompt (userInput : String) (protocolName : Option String)
    (condition device parameterName threshold : String)
    (systemState : SystemState) : String :=
  "The user wants to set up conditional protocol execution:\n\"" ++ userInput
    ++ "\"\n\nContext:\n- Protocol: " ++ protocolName.getD "None"
    ++ "\n- Condition: " ++ condition
    ++ "\n- Device: " ++ device
    ++ "\n- Parameter: " ++ parameterName
    ++ "\n- Threshold: " ++ threshold
    ++ "\n- Available protocols: " ++ pyListRepr (dkeys systemState.protocols)
    ++ "\n- Available instruments: " ++ pyListRepr (dkeys systemState.instruments)
    ++ "\n\nAnalyze this request: condition, monitoring setup, safety, "
    ++ "frequency, execution plan, fallback procedures."

/-- Function `_create_conditional_monitor`: register the record and start the
monitoring thread; returns the generated monitor id, the new agent state and
the thread-start effect. `now` stands for `datetime.now().strftime('%H%M%S')`. -/
def mcCreateConditionalMonitor (protocolName condition : String) (st : MCState)
    (now : String) : String × MCState × List Effect :=
  let monitorId := "conditional_" ++ protocolName ++ "_" ++ now
  let record : MonitorRecord :=
    { type := "conditional", protocol := protocolName, condition := condition
      created := now, status := "active" }
  ( monitorId
  , { active_monitors := dinsert st.active_monitors monitorId record
      monitoring_threads := dinsert st.monitoring_threads monitorId () }
  , [Effect.threadStarted monitorId] )

/-- Handler `_setup_conditional_execution`. -/
def mcSetupConditionalExecution (model : Model) (userInput : String)
    (params : Params) (ctx : Context) (st : MCState) (now : String) : MCResult :=
  let protocolName := params.protocol_name
  let device := params.device.getD ""
  let parameterName := params.parameter.getD ""
  let threshold := params.threshold.getD ""
  let systemState := ctx.system_state
  let condition := mcEffectiveCondition params userInput
  let prompt :=
    mcCondSetupPrompt userInput protocolName condition device parameterName
      threshold systemState
  match model prompt with
  | Except.error e =>
    { response := "I encountered an error while setting up conditional execution: " ++ e
      state := st, effects := [Effect.modelCall prompt] }
  | Except.ok resp =>
    if pyTruthy protocolName && condition ≠ "" then
      let created := mcCreateConditionalMonitor (protocolName.getD "") condition st now
      { response := "🎯 Conditional Execution Setup:\n\n" ++ resp
          ++ "\n\n✅ Monitor created with ID: " ++ created.1
        state := created.2.1
        effects := Effect.modelCall prompt :: created.2.2 }
    else
      { response := "🎯 Conditional Execution Analysis:\n\n" ++ resp
          ++ "\n\n⚠️ Please provide more specific details to set up the actual monitoring."
        state := st, effects := [Effect.modelCall prompt] }

/-- Function `_create_device_monitor`. -/
def mcCreateDeviceMonitor (deviceName parameterName interval : String)
    (st : MCState) (now : String) : String × MCState × List Effect :=
  let monitorId := "device_" ++ deviceName ++ "_" ++ now
  let record : MonitorRecord :=
    { type := "device", device := deviceName, parameter := parameterName
      interval := interval, created := now, status := "active" }
  ( monitorId
  , { active_monitors := dinsert st.active_monitors monitorId record
      monitoring_threads := dinsert st.monitoring_threads monitorId () }
  , [Effect.threadStarted monitorId] )

/-- Prompt built by `_setup_device_monitoring`. -/
def mcMonitoringPrompt (userInput deviceName parameterName interval : String)
    (systemState : SystemState) : String :=
  "The user wants to set up device monitoring:\n\"" ++ userInput
    ++ "\"\n\nContext:\n- Device: " ++ deviceName
    ++ "\n- Parameter: " ++ parameterName
    ++ "\n- Monitoring interval: " ++ interval
    ++ "\n- Available instruments: " ++ pyListRepr (dkeys systemState.instruments)
    ++ "\n\nProvide guidance for setup, intervals, logging, alerts, performance."

/-- Handler `_setup_device_monitoring`. -/
def mcSetupDeviceMonitoring (model : Model) (userInput : String) (params : Params)
    (ctx : Context) (st : MCState) (now : String) : MCResult :=
  let deviceName := params.device.getD ""
  let parameterName := params.parameter.getD ""
  let interval := params.interval.getD "1.0"
  let systemState := ctx.system_state
  let prompt := mcMonitoringPrompt userInput deviceName parameterName interval systemState
  match model prompt with
  | Except.error e =>
    { response := "I encountered an error while setting up device monitoring: " ++ e
      state := st, effects := [Effect.modelCall prompt] }
  | Except.ok resp =>
    if deviceName ≠ "" then
      let created := mcCreateDeviceMonitor deviceName parameterName interval st now
      { response := "📊 Device Monitoring Setup:\n\n" ++ resp
          ++ "\n\n✅ Monitor started with ID: " ++ created.1
        state := created.2.1
        effects := Effect.modelCall prompt :: created.2.2 }
    else
      { response := "📊 Device Monitoring Analysis:\n\n" ++ resp
        state := st, effects := [Effect.modelCall prompt] }

/-- Function `_stop_monitor`: set the record's status to `stopped`, delete it,
and drop the thread reference. -/
def mcStopMonitor (st : MCState) (monitorId : String) : MCState :=
  let activeMonitors :=
    match dget st.active_monitors monitorId with
    | some record =>
      derase (dinsert st.active_monitors monitorId { record with status := "stopped" })
        monitorId
    | none => st.active_monitors
  let threads :=
    if dmem st.monitoring_threads monitorId then derase st.monitoring_threads monitorId
    else st.monitoring_threads
  { active_monitors := activeMonitors, monitoring_threads := threads }

/-- Handler `_stop_monitoring`. -/
def mcStopMonitoring (userInput : String) (params : Params) (ctx : Context)
    (st : MCState) : MCResult :=
  let monitorId := params.monitor_id.getD ""
  if monitorId ≠ "" && dmem st.active_monitors monitorId then
    { response := "🛑 Stopped monitoring task: " ++ monitorId
      state := mcStopMonitor st monitorId, effects := [] }
  else if monitorId = "" && dictTruthy st.active_monitors then
    let stoppedMonitors := dkeys st.active_monitors
    { response := "🛑 Stopped all monitoring tasks: " ++ pyListRepr stoppedMonitors
      state := stoppedMonitors.foldl mcStopMonitor st, effects := [] }
  else
    { response := "ℹ️ No active monitoring tasks to stop."
      state := st, effects := [] }

/-- Prompt built by `_analyze_measurement_request`. -/
def mcAnalysisPrompt (userInput : String) (systemState : SystemState) : String :=
  "The user has a measurement control question or request:\n\"" ++ userInput
    ++ "\"\n\nCurrent system context:\n- Available protocols: "
    ++ pyListRepr (dkeys systemState.protocols)
    ++ "\n- Available instruments: " ++ pyListRepr (dkeys systemState.instruments)
    ++ "\n- Active sample: " ++ systemState.active_sample.getD "None"
    ++ "\n\nProvide helpful guidance and suggest specific actions for measurement control."

/-- Fallback handler `_analyze_measurement_request`. -/
def mcAnalyzeMeasurementRequest (model : Model) (userInput : String)
    (params : Params) (ctx : Context) (st : MCState) : MCResult :=
  let systemState := ctx.system_state
  let prompt := mcAnalysisPrompt userInput systemState
  match model prompt with
  | Except.ok resp =>
    { response := "🔬 Measurement Control Analysis:\n\n" ++ resp
      state := st, effects := [Effect.modelCall prompt] }
  | Except.error e =>
    { response := "I encountered an error while analyzing your measurement request: " ++ e
      state := st, effects := [Effect.modelCall prompt] }

/-- Record the dispatched handler at the head of the effect trace. -/
def mcWithHandler (t : MCHandler) (r : MCResult) : MCResult :=
  { r with effects := Effect.mcHandlerRun t :: r.effects }

/-- Body of `MeasurementControlAgent.process_request` (its `try` block):
read the intent from `system_state` and dispatch. `Except.error` would be an
uncaught exception escaping toward the caller. -/
def mcProcessRequestBody (model : Model) (userInput : String) (params : Params)
    (ctx : Context) (st : MCState) (now : String) : Except String MCResult :=
  let intent := ctx.system_state.intent.getD "unknown"
  if intent = "inspect_protocol" then
    Except.ok (mcWithHandler MCHandler.inspectProtocol
      (mcInspectProtocol model userInput params ctx st))
  else if intent = "conditional_execution" then
    Except.ok (mcWithHandler MCHandler.conditionalExecution
      (mcSetupConditionalExecution model userInput params ctx st now))
  else if intent = "monitor_devices" then
    Except.ok (mcWithHandler MCHandler.monitorDevices
      (mcSetupDeviceMonitoring model userInput params ctx st now))
  else if intent = "stop_monitoring" then
    Except.ok (mcWithHandler MCHandler.stopMonitoring
      (mcStopMonitoring userInput params ctx st))
  else
    Except.ok (mcWithHandler MCHandler.analyzeMeasurementRequest
      (mcAnalyzeMeasurementRequest model userInput params ctx st))

/-- `MeasurementControlAgent.process_request`: the dispatch wrapped in the
top-level `try/except` that converts any escaping exception into a
user-facing error text. -/
def mcProcessRequest (model : Model) (userInput : String) (params : Params)
    (ctx : Context) (st : MCState) (now : String) : MCResult :=
  match mcProcessRequestBody model userInput params ctx st now with
  | Except.ok r => r
  | Except.error e =>
    { response := "I encountered an error while processing your measurement control request: "
        ++ e ++ ". Please try again."
      state := st, effects := [] }

/-- Method `get_active_monitors`: `dict(self.active_monitors)`. -/
def mcGetActiveMonitors (st : MCState) : PyDict MonitorRecord :=
  dictCopy st.active_monitors

/-! ProtocolAgent (protocol_agent.py). -/

/-- Intent resolution at the top of `ProtocolAgent.process_request`: the
classified intent from `system_state`, refined — when it is `unknown` — first
from the last conversation-history entry and then by keyword detection over
the lowered user input. -/
def paResolveIntent (userInput : String) (ctx : Context) : String :=
  let intent := ctx.system_state.intent.getD "unknown"
  let intent :=
    if intent = "unknown" then
      match ctx.conversation_history.getLast? with
      | some entry => entry.getD "unknown"
      | none => intent
    else intent
  if intent = "unknown" then
    let userLower := pyLower userInput
    if (["list", "show", "provide"].any (fun w => strContains userLower w))
        && (["protocol", "measurement protocol", "protocols"].any
            (fun w => strContains userLower w)) then
      "list_protocols"
    else if ["run", "execute", "start"].any (fun w => strContains userLower w) then
      "run_protocol"
    else if ["inspect", "analyze", "examine"].any (fun w => strContains userLower w) then
      "inspect_protocol"
    else intent
  else intent

/-- Method `_can_execute_protocol`: an active sample must exist (the key's
value must differ from the string `None`; an absent key also passes) and no
protocol may already be running. -/
def paCanExecuteProtocol (protocolName : String) (ctx : Context) : Bool :=
  let systemState := ctx.system_state
  if systemState.active_sample = some "None" then false
  else if systemState.protocol_running then false
  else true

/-- Prompt built by `ProtocolAgent._run_protocol`. -/
def paExecutionPrompt (userInput protocolName : String) (systemState : SystemState) : String :=
  "The user wants to execute protocol '" ++ protocolName ++ "':\n\"" ++ userInput
    ++ "\"\n\nCurrent context:\n- Active sample: " ++ systemState.active_sample.getD "None"
    ++ "\n- Available instruments: " ++ pyListRepr (dkeys systemState.instruments)
    ++ "\n- Protocol details: " ++ (dget systemState.protocols protocolName).getD ""
    ++ "\n\nProvide guidance for protocol execution: pre-execution checks, "
    ++ "instruments, time, warnings, conditional execution recommendations."

/-- Handler `_run_protocol`: look the protocol up, consult the model, and on
success attempt the side-effecting host call gated by `_can_execute_protocol`
and by `hasattr(self.main_window, 'run_protocol')`. -/
def paRunProtocol (model : Model) (hostHasRunProtocol : Bool) (hostRun : HostRun)
    (userInput : String) (params : Params) (ctx : Context) : PAResult :=
  if ! pyTruthy params.protocol_name then
    { response := "I need a protocol name to execute. Which protocol would you like to run?"
      effects := [] }
  else
    let protocolName := params.protocol_name.getD ""
    let systemState := ctx.system_state
    let availableProtocols := systemState.protocols
    if ! dmem availableProtocols protocolName then
      { response := "Protocol '" ++ protocolName ++ "' not found. Available protocols: "
          ++ pyListRepr (dkeys availableProtocols)
        effects := [] }
    else
      let prompt := paExecutionPrompt userInput protocolName systemState
      match model prompt with
      | Except.error e =>
        { response := "I encountered an error while preparing to execute the protocol: " ++ e
          effects := [Effect.modelCall prompt] }
      | Except.ok resp =>
        if paCanExecuteProtocol protocolName ctx then
          if hostHasRunProtocol then
            match hostRun protocolName with
            | Except.ok _ =>
              { response := "🔬 Starting protocol '" ++ protocolName ++ "':\n" ++ resp
                  ++ "\n\n✅ Protocol execution initiated!"
                effects := [Effect.modelCall prompt, Effect.hostRunProtocol protocolName] }
            | Except.error e =>
              { response := "I encountered an error while preparing to execute the protocol: " ++ e
                effects := [Effect.modelCall prompt, Effect.hostRunProtocol protocolName] }
          else
            { response := "🔬 Protocol '" ++ protocolName ++ "' ready to start:\n" ++ resp
                ++ "\n\n⚠️ Please use the main interface to start execution."
              effects := [Effect.modelCall prompt] }
        else
          { response := "⚠️ Cannot execute protocol '" ++ protocolName ++ "' right now:\n" ++ resp
            effects := [Effect.modelCall prompt] }

/-- Prompt built by `ProtocolAgent._inspect_protocol`. -/
def paInspectionPrompt (userInput protocolName protocolData : String)
    (systemState : SystemState) : String :=
  "The user wants to inspect protocol '" ++ protocolName ++ "':\n\"" ++ userInput
    ++ "\"\n\nProtocol data: " ++ protocolData
    ++ "\nAvailable instruments: " ++ pyListRepr (dkeys systemState.instruments)
    ++ "\nCurrent sample: " ++ systemState.active_sample.getD "None"
    ++ "\n\nProvide a comprehensive protocol analysis: overview, steps, "
    ++ "instruments, outputs, time, safety, prerequisites, optimization, "
    ++ "conditional-execution compatibility."

/-- Handler `_inspect_protocol` of the protocol agent. -/
def paInspectProtocol (model : Model) (userInput : String) (params : Params)
    (ctx : Context) : PAResult :=
  let protocolName := params.protocol_name
  let systemState := ctx.system_state
  let availableProtocols := systemState.protocols
  if ! pyTruthy protocolName then
    if dictTruthy availableProtocols then
      { response := "📋 I can inspect any of these protocols: "
          ++ pyListRepr (dkeys availableProtocols)
          ++ ". Which one would you like to analyze?"
        effects := [] }
    else
      { response := "📋 No protocols are currently loaded. Please load a protocol first."
        effects := [] }
  else
    let pname := protocolName.getD ""
    if ! dmem availableProtocols pname then
      { response := "❌ Protocol '" ++ pname ++ "' not found. Available protocols: "
          ++ pyListRepr (dkeys availableProtocols)
        effects := [] }
    else
      let protocolData := (dget availableProtocols pname).getD ""
      let prompt := paInspectionPrompt userInput pname protocolData systemState
      match model prompt with
      | Except.ok resp =>
        { response := "🔍 Protocol Analysis for '" ++ pname ++ "':\n\n" ++ resp
          effects := [Effect.modelCall prompt] }
      | Except.error e =>
        { response := "I encountered an error while inspecting the protocol: " ++ e
          effects := [Effect.modelCall prompt] }

/-- Prompt built by `_get_protocol_status`: the three snapshot fields and the
protocol list. -/
def paStatusPrompt (userInput : String) (systemState : SystemState) : String :=
  "The user wants to check protocol status:\n\"" ++ userInput
    ++ "\"\n\nCurrent status:\n- Protocol running: "
    ++ (if systemState.protocol_running then "True" else "False")
    ++ "\n- Current protocol: " ++ systemState.current_protocol.getD "None"
    ++ "\n- Execution progress: " ++ toString systemState.execution_progress ++ "%"
    ++ "\n- Available protocols: " ++ pyListRepr (dkeys systemState.protocols)
    ++ "\n\nProvide a clear status report and suggest next actions if appropriate."

/-- Handler `_get_protocol_status`. -/
def paGetProtocolStatus (model : Model) (userInput : String) (params : Params)
    (ctx : Context) : PAResult :=
  let prompt := paStatusPrompt userInput ctx.system_state
  match model prompt with
  | Except.ok resp =>
    { response := "📊 Protocol Status:\n\n" ++ resp
      effects := [Effect.modelCall prompt] }
  | Except.error e =>
    { response := "I encountered an error while checking protocol status: " ++ e
      effects := [Effect.modelCall prompt] }

/-- The hard-coded message `_list_protocols` returns when no protocols are
loaded. -/
def paNoProtocolsMessage : String :=
  "📋 **No measurement protocols found.**\n\nThis could be because:\n"
    ++ "1. **No protocols have been loaded yet** - Protocols need to be loaded from files or created\n"
    ++ "2. **The system is still initializing** - Please wait a moment and try again\n"
    ++ "3. **Protocols are stored elsewhere** - Check if protocols are loaded in the main interface\n\n"
    ++ "**To load or create protocols:**\n\n🔧 **Loading existing protocols:**\n"
    ++ "- Go to **File → Load Protocol** in the main menu\n"
    ++ "- Navigate to your protocol files (usually `.json` or `.camels` files)\n"
    ++ "- Select and load your measurement protocols\n\n🔧 **Creating new protocols:**\n"
    ++ "- Use the **Protocol Builder** in the main interface\n"
    ++ "- Define measurement steps, instruments, and parameters\n"
    ++ "- Save your protocol for future use\n\n🔧 **Importing protocols:**\n"
    ++ "- Import protocols from previous NOMAD-CAMELS sessions\n"
    ++ "- Load protocol templates from the examples folder\n\n"
    ++ "📝 **Need help?** Ask me:\n- \"How do I create a new protocol?\"\n"
    ++ "- \"How do I load existing protocols?\"\n- \"Show me protocol examples\"\n\n"
    ++ "Would you like guidance on any of these options?"

/-- Prompt built by `_list_protocols`. -/
def paListPrompt (userInput : String) (systemState : SystemState) : String :=
  "The user wants to see the protocol list:\n\"" ++ userInput
    ++ "\"\n\nAvailable protocols: " ++ pyListRepr (dkeys systemState.protocols)
    ++ "\nCurrent system context:\n- Active sample: " ++ systemState.active_sample.getD "None"
    ++ "\n- Available instruments: " ++ pyListRepr (dkeys systemState.instruments)
    ++ "\n\nFormat this information in a user-friendly way as a numbered list."

/-- The bare bullet list `\n`-joined from the protocol names, the hard-coded
fallback of `_list_protocols`. -/
def paProtocolBulletList (availableProtocols : PyDict String) : String :=
  joinSep "\n" ((dkeys availableProtocols).map (fun name => "• " ++ name))

/-- Handler `_list_protocols`: format the protocol map into a prompt for the
model, falling back to the bare bullet list when the model call fails. -/
def paListProtocols (model : Model) (userInput : String) (params : Params)
    (ctx : Context) : PAResult :=
  let systemState := ctx.system_state
  let availableProtocols := systemState.protocols
  if ! dictTruthy availableProtocols then
    { response := paNoProtocolsMessage, effects := [] }
  else
    let prompt := paListPrompt userInput systemState
    match model prompt with
    | Except.ok resp =>
      { response := "📋 **Available Protocols (" ++ toString availableProtocols.length
          ++ " found):**\n\n" ++ resp
        effects := [Effect.modelCall prompt] }
    | Except.error e =>
      { response := "📋 **Available Protocols (" ++ toString availableProtocols.length
          ++ " found):**\n\n" ++ paProtocolBulletList availableProtocols
          ++ "\n\nNote: Error occurred while getting detailed information: " ++ e
        effects := [Effect.modelCall prompt] }

/-- Prompt built by `_general_protocol_query`. -/
def paQueryPrompt (userInput : String) (systemState : SystemState) : String :=
  "The user has a general protocol-related question:\n\"" ++ userInput
    ++ "\"\n\nCurrent context:\n- Available protocols: "
    ++ pyListRepr (dkeys systemState.protocols)
    ++ "\n- Active sample: " ++ systemState.active_sample.getD "None"
    ++ "\n- Available instruments: " ++ pyListRepr (dkeys systemState.instruments)
    ++ "\n\nProvide a helpful response and suggest specific actions if appropriate."

/-- Fallback handler `_general_protocol_query`. -/
def paGeneralProtocolQuery (model : Model) (userInput : String) (params : Params)
    (ctx : Context) : PAResult :=
  let prompt := paQueryPrompt userInput ctx.system_state
  match model prompt with
  | Except.ok resp =>
    { response := "🔬 Protocol Information: " ++ resp
      effects := [Effect.modelCall prompt] }
  | Except.error e =>
    { response := "I encountered an error while processing your protocol query: " ++ e
      effects := [Effect.modelCall prompt] }

/-- Record the dispatched handler at the head of the effect trace. -/
def paWithHandler (t : PAHandler) (r : PAResult) : PAResult :=
  { r with effects := Effect.paHandlerRun t :: r.effects }

/-- Body of `ProtocolAgent.process_request` (its `try` block): resolve the
intent and dispatch. `Except.error` would be an uncaught exception escaping
toward the caller. -/
def paProcessRequestBody (model : Model) (hostHasRunProtocol : Bool)
    (hostRun : HostRun) (userInput : String) (params : Params) (ctx : Context) :
    Except String PAResult :=
  let intent := paResolveIntent userInput ctx
  if intent = "run_protocol" then
    Except.ok (paWithHandler PAHandler.runProtocol
      (paRunProtocol model hostHasRunProtocol hostRun userInput params ctx))
  else if intent = "list_protocols" then
    Except.ok (paWithHandler PAHandler.listProtocols
      (paListProtocols model userInput params ctx))
  else if intent = "inspect_protocol" then
    Except.ok (paWithHandler PAHandler.inspectProtocol
      (paInspectProtocol model userInput params ctx))
  else if intent = "protocol_status" then
    Except.ok (paWithHandler PAHandler.protocolStatus
      (paGetProtocolStatus model userInput params ctx))
  else
    Except.ok (paWithHandler PAHandler.generalProtocolQuery
      (paGeneralProtocolQuery model userInput params ctx))

/-- The generic apology `ProtocolAgent.process_request` returns when a handler
raises. -/
def paGenericApology (e : String) : String :=
  "I encountered an error while processing your protocol request: " ++ e
    ++ ". Please try again."

/-- `ProtocolAgent.process_request`: the dispatch wrapped in the top-level
`try/except` that converts any escaping exception into a user-facing error
text. -/
def paProcessRequest (model : Model) (hostHasRunProtocol : Bool) (hostRun : HostRun)
    (userInput : String) (params : Params) (ctx : Context) : PAResult :=
  match paProcessRequestBody model hostHasRunProtocol hostRun userInput params ctx with
  | Except.ok r => r
  | Except.error e => { response := paGenericApology e, effects := [] }

/-! The heap view of `get_active_monitors`, for the aliasing behaviour of
`dict(self.active_monitors)`: dictionary objects live in a store of cells and
the agent's registry is a reference into it. -/

/-- A store of dictionary objects; references are indices. -/
abbrev MonitorHeap : Type := List (PyDict MonitorRecord)

/-- A `MeasurementControlAgent` whose `active_monitors` is a reference into
the store. -/
structure MCHeapAgent where
  heap : MonitorHeap
  active_monitors_ref : Nat

/-- Method `get_active_monitors` at the heap level: `dict(self.active_monitors)`
allocates a fresh cell holding a copy of the registry's entries and hands the
caller a reference to that new cell. -/
def heapGetActiveMonitors (a : MCHeapAgent) : MonitorHeap × Nat :=
  ( a.heap ++ [dictCopy ((a.heap[a.active_monitors_ref]?).getD [])]
  , a.heap.length )

/-- A caller mutating the dictionary behind `ref` (adding, removing or
replacing entries yields some new contents `d`). -/
def heapWriteDict (h : MonitorHeap) (ref : Nat) (d : PyDict MonitorRecord) : MonitorHeap :=
  h.set ref d

/-! Basic facts about the dictionary embedding. -/

theorem dget_cons_self {α : Type} (k : String) (v : α) (d : PyDict α) :
    dget ((k, v) :: d) k = some v := by
  simp [dget]

theorem dinsert_cons_self {α : Type} (k : String) (v w : α) (d : PyDict α) :
    dinsert ((k, v) :: d) k w = (k, w) :: d := by
  simp [dinsert]

theorem derase_cons_self {α : Type} (k : String) (v : α) (d : PyDict α) :
    derase ((k, v) :: d) k = d := by
  simp [derase]

theorem dget_dinsert_self {α : Type} (d : PyDict α) (k : String) (v : α) :
    dget (dinsert d k v) k = some v := by
  induction d with
  | nil => simp [dinsert, dget]
  | cons kv d ih =>
    obtain ⟨k', v'⟩ := kv
    by_cases h : k' = k
    · subst h
      simp [dinsert, dget]
    · simp [dinsert, dget, h, ih]

theorem dictCopy_eq {α : Type} (d : PyDict α) : dictCopy d = d := by
  induction d with
  | nil => rfl
  | cons kv d ih =>
    simp only [dictCopy, List.foldr] at ih ⊢
    rw [ih]

/-- Stopping the monitor at the head of the registry deletes exactly that
entry. -/
theorem mcStopMonitor_cons_self (k : String) (r : MonitorRecord)
    (rest : PyDict MonitorRecord) (th : PyDict Unit) :
    (mcStopMonitor ⟨(k, r) :: rest, th⟩ k).active_monitors = rest := by
  simp [mcStopMonitor, dget_cons_self, dinsert_cons_self, derase_cons_self]

/-! Concrete fixtures used by closed witnesses and counterexamples. -/

/-- A model oracle whose every call succeeds. -/
def okModel : Model := fun _ => Except.ok "model analysis"

/-- A model oracle whose every call raises. -/
def errModel : Model := fun _ => Except.error "model offline"

/-- A host whose `run_protocol` entry point succeeds. -/
def okHost : HostRun := fun _ => Except.ok ()

/-- A registered conditional monitor record. -/
def sampleMonitorRecord : MonitorRecord :=
  { type := "conditional", protocol := "P", condition := "stop when pressure<1e-9"
    created := "120000", status := "active" }

/-- A one-entry monitor registry. -/
def sampleRegistry : PyDict MonitorRecord :=
  [("conditional_P_120000", sampleMonitorRecord)]

/-- A context whose snapshot holds one protocol and an active sample. -/
def sampleContext : Context :=
  { system_state := { protocols := [("Scan", "steps")], active_sample := some "Sample1" } }

/-- A context whose classified intent is the string `unknown`. -/
def unknownContext : Context :=
  { system_state := { intent := some "unknown" } }

/-- A context whose snapshot's `active_sample` is the string `None`. -/
def noSampleContext : Context :=
  { system_state := { protocols := [("Scan", "steps")], active_sample := some "None" } }

/-- A heap-level agent owning one registry cell. -/
def sampleHeapAgent : MCHeapAgent :=
  { heap := [sampleRegistry], active_monitors_ref := 0 }

/-- Whether an effect records a measurement-control handler invocation. -/
def isMCHandlerRun : Effect → Bool
  | Effect.mcHandlerRun _ => true
  | _ => false

/-- Whether an effect records a protocol-agent handler invocation. -/
def isPAHandlerRun : Effect → Bool
  | Effect.paHandlerRun _ => true
  | _ => false

/-- Stopping the monitor at the head of the registry deletes exactly that
entry (and its thread reference when present). -/
theorem mcStopMonitor_cons_eq (k : String) (r : MonitorRecord)
    (rest : PyDict MonitorRecord) (th : PyDict Unit) :
    mcStopMonitor ⟨(k, r) :: rest, th⟩ k =
      ⟨rest, if dmem th k then derase th k else th⟩ := by
  simp [mcStopMonitor, dget_cons_self, dinsert_cons_self, derase_cons_self]

/-! The claims. -/

/-- C1: for every protocol-execution request whose context's `system_state`
has `active_sample` equal to the string `None`, the `_run_protocol` handler
never invokes the host application's `run_protocol` entry point — whatever
the extracted parameters are, whether the host exposes the entry point, and
whatever the model returns or raises: `_can_execute_protocol` is false, so
the host-call branch is unreachable. -/
theorem c1_no_sample_never_runs_host
    (model : Model) (hostHasRunProtocol : Bool) (hostRun : HostRun)
    (userInput : String) (params : Params) (ctx : Context)
    (h : ctx.system_state.active_sample = some "None") :
    ∀ name, Effect.hostRunProtocol name ∉
      (paRunProtocol model hostHasRunProtocol hostRun userInput params ctx).effects := by
  intro name
  have hce : ∀ p, paCanExecuteProtocol p ctx = false := by
    intro p; simp [paCanExecuteProtocol, h]
  simp only [paRunProtocol, hce]
  split
  · simp
  · split
    · simp
    · split
      · simp
      · simp

/-- C1 witness: with `active_sample = "None"`, a loaded protocol `Scan`, a
succeeding model and a host exposing `run_protocol`, the host is still not
invoked. -/
theorem c1_witness :
    Effect.hostRunProtocol "Scan" ∉
      (paRunProtocol okModel true okHost "run Scan" { protocol_name := some "Scan" }
        noSampleContext).effects :=
  c1_no_sample_never_runs_host okModel true okHost "run Scan"
    { protocol_name := some "Scan" } noSampleContext rfl "Scan"

/-- C2: for every inspection request naming a protocol that is not a key of
the snapshot's protocol map, both agents' `_inspect_protocol` handlers return
a message containing the Python-printed list of available protocol names, and
their effect traces are empty — in particular the model is never called. -/
theorem c2_inspect_unknown_lists_names
    (model model2 : Model) (userInput userInput2 : String) (params : Params)
    (ctx : Context) (st : MCState) (p : String)
    (hname : params.protocol_name = some p) (hne : p ≠ "")
    (habs : dmem ctx.system_state.protocols p = false) :
    ((∃ a b, (mcInspectProtocol model userInput params ctx st).response =
        a ++ pyListRepr (dkeys ctx.system_state.protocols) ++ b) ∧
      (mcInspectProtocol model userInput params ctx st).effects = []) ∧
    ((∃ a b, (paInspectProtocol model2 userInput2 params ctx).response =
        a ++ pyListRepr (dkeys ctx.system_state.protocols) ++ b) ∧
      (paInspectProtocol model2 userInput2 params ctx).effects = []) := by
  have htr : pyTruthy (some p) = true := by
    simpa [pyTruthy] using hne
  constructor
  · constructor
    · refine ⟨"❌ Protocol '" ++ p ++ "' not found. Available protocols: ", "", ?_⟩
      simp [mcInspectProtocol, htr, hname, habs, String.append_empty]
    · simp [mcInspectProtocol, htr, hname, habs]
  · constructor
    · refine ⟨"❌ Protocol '" ++ p ++ "' not found. Available protocols: ", "", ?_⟩
      simp [paInspectProtocol, htr, hname, habs, String.append_empty]
    · simp [paInspectProtocol, htr, hname, habs]

/-- C2 witness: inspecting the absent protocol `ghost` against a snapshot
holding only `Scan` leaves both handlers' effect traces empty. -/
theorem c2_witness :
    (mcInspectProtocol okModel "inspect ghost" { protocol_name := some "ghost" }
        sampleContext {}).effects = [] ∧
    (paInspectProtocol okModel "inspect ghost" { protocol_name := some "ghost" }
        sampleContext).effects = [] := by
  have h := c2_inspect_unknown_lists_names okModel okModel "inspect ghost" "inspect ghost"
    { protocol_name := some "ghost" } sampleContext {} "ghost" rfl (by decide) (by decide)
  exact ⟨h.1.2, h.2.2⟩

/-- C3 (amended): for every stop-monitoring request carrying a non-empty
monitor identifier that is not in the registry, `_stop_monitoring` returns
the `no active monitoring tasks` informational message and leaves the agent
state unchanged — whether the registry is empty or not; the non-empty case
produces no distinct generic acknowledgement. -/
theorem c3_stop_unknown_monitor
    (userInput : String) (params : Params) (ctx : Context) (st : MCState) (mid : String)
    (hmid : params.monitor_id = some mid) (hne : mid ≠ "")
    (habs : dmem st.active_monitors mid = false) :
    (mcStopMonitoring userInput params ctx st).response =
      "ℹ️ No active monitoring tasks to stop." ∧
    (mcStopMonitoring userInput params ctx st).state = st := by
  constructor <;> simp [mcStopMonitoring, hmid, hne, habs]

/-- C3 counterexample: with a non-empty registry and the unknown identifier
`ghost`, the handler still returns the `no active monitoring tasks` message —
not an acknowledgement distinct from the empty-registry message, as the claim
reads. -/
theorem c3_counterexample :
    (mcStopMonitoring "stop the ghost monitor" { monitor_id := some "ghost" } {}
        { active_monitors := sampleRegistry }).response =
      "ℹ️ No active monitoring tasks to stop." ∧
    sampleRegistry ≠ [] := by
  constructor
  · decide
  · decide

/-- C3 witness: stopping the unknown identifier `ghost` on the empty registry
returns the `no active monitoring tasks` message. -/
theorem c3_witness :
    (mcStopMonitoring "stop" { monitor_id := some "ghost" } {} {}).response =
      "ℹ️ No active monitoring tasks to stop." :=
  (c3_stop_unknown_monitor "stop" { monitor_id := some "ghost" } {} {} "ghost" rfl
    (by decide) (by decide)).1

/-- C4 (amended): whenever the effective intent falls outside the known
enumerated set, the router invokes the generic fallback handler exactly once
(one handler-invocation effect, at the head of the trace, naming the fallback).
For the measurement control agent the effective intent is the classified one
from `system_state`; for the protocol agent it is the classified intent after
the history/keyword re-classification step — a classified `unknown` intent
that re-classifies to a known intent invokes that intent's handler instead
(see the counterexample). -/
theorem c4_unknown_intent_fallback :
    (∀ (model : Model) (userInput : String) (params : Params) (ctx : Context)
        (st : MCState) (now : String),
      ctx.system_state.intent.getD "unknown" ∉
          (["inspect_protocol", "conditional_execution", "monitor_devices",
            "stop_monitoring"] : List String) →
      (mcProcessRequest model userInput params ctx st now).effects.countP isMCHandlerRun = 1 ∧
      (mcProcessRequest model userInput params ctx st now).effects.head? =
        some (Effect.mcHandlerRun MCHandler.analyzeMeasurementRequest)) ∧
    (∀ (model : Model) (hostHasRunProtocol : Bool) (hostRun : HostRun)
        (userInput : String) (params : Params) (ctx : Context),
      paResolveIntent userInput ctx ∉
          (["run_protocol", "list_protocols", "inspect_protocol",
            "protocol_status"] : List String) →
      (paProcessRequest model hostHasRunProtocol hostRun userInput params ctx).effects.countP
          isPAHandlerRun = 1 ∧
      (paProcessRequest model hostHasRunProtocol hostRun userInput params ctx).effects.head? =
        some (Effect.paHandlerRun PAHandler.generalProtocolQuery)) := by
  constructor
  · intro model userInput params ctx st now hint
    simp only [List.mem_cons, List.not_mem_nil, or_false, not_or] at hint
    obtain ⟨h1, h2, h3, h4⟩ := hint
    rcases hm : model (mcAnalysisPrompt userInput ctx.system_state) with e | resp <;>
      simp [mcProcessRequest, mcProcessRequestBody, h1, h2, h3, h4, mcWithHandler,
        mcAnalyzeMeasurementRequest, hm, List.countP_cons, isMCHandlerRun]
  · intro model hostHasRunProtocol hostRun userInput params ctx hint
    simp only [List.mem_cons, List.not_mem_nil, or_false, not_or] at hint
    obtain ⟨h1, h2, h3, h4⟩ := hint
    rcases hm : model (paQueryPrompt userInput ctx.system_state) with e | resp <;>
      simp [paProcessRequest, paProcessRequestBody, h1, h2, h3, h4, paWithHandler,
        paGeneralProtocolQuery, hm, List.countP_cons, isPAHandlerRun]

/-- C4 counterexample: the classified intent `unknown` is not in the protocol
agent's known enumerated set, yet for the input `run it` the keyword fallback
re-classifies the request and `process_request` invokes the run-protocol
handler, not the generic fallback handler. -/
theorem c4_counterexample :
    unknownContext.system_state.intent.getD "unknown" ∉
        (["run_protocol", "list_protocols", "inspect_protocol",
          "protocol_status"] : List String) ∧
    (paProcessRequest okModel true okHost "run it" {} unknownContext).effects.head? =
      some (Effect.paHandlerRun PAHandler.runProtocol) ∧
    (paProcessRequest okModel true okHost "run it" {} unknownContext).effects.head? ≠
      some (Effect.paHandlerRun PAHandler.generalProtocolQuery) := by
  refine ⟨by decide, ?_, ?_⟩ <;> decide

/-- C5: for every input — including model and host oracles that raise — the
dispatch body of both agents' `process_request` evaluates to `Except.ok`:
every raise site is under a catch, so the routers never propagate an
exception to their callers, and the total wrappers return exactly the body's
user-facing text. -/
theorem c5_router_never_propagates :
    (∀ (model : Model) (userInput : String) (params : Params) (ctx : Context)
        (st : MCState) (now : String), ∃ r,
      mcProcessRequestBody model userInput params ctx st now = Except.ok r ∧
      mcProcessRequest model userInput params ctx st now = r) ∧
    (∀ (model : Model) (hostHasRunProtocol : Bool) (hostRun : HostRun)
        (userInput : String) (params : Params) (ctx : Context), ∃ r,
      paProcessRequestBody model hostHasRunProtocol hostRun userInput params ctx =
        Except.ok r ∧
      paProcessRequest model hostHasRunProtocol hostRun userInput params ctx = r) := by
  constructor
  · intro model userInput params ctx st now
    have hb : ∃ r, mcProcessRequestBody model userInput params ctx st now = Except.ok r := by
      simp only [mcProcessRequestBody]
      split_ifs <;> exact ⟨_, rfl⟩
    obtain ⟨r, hr⟩ := hb
    exact ⟨r, hr, by simp [mcProcessRequest, hr]⟩
  · intro model hostHasRunProtocol hostRun userInput params ctx
    have hb : ∃ r, paProcessRequestBody model hostHasRunProtocol hostRun userInput params ctx =
        Except.ok r := by
      simp only [paProcessRequestBody]
      split_ifs <;> exact ⟨_, rfl⟩
    obtain ⟨r, hr⟩ := hb
    exact ⟨r, hr, by simp [paProcessRequest, hr]⟩

/-- C6 (amended): for a conditional-execution setup request on which the
model call succeeds, a monitor is registered under the generated identifier
and its background loop started if and only if both a protocol name and a
non-empty condition (after parameter extraction and keyword fallback) are
present; otherwise — and also whenever the model call raises, which the
claim as stated does not except — the agent state is unchanged and no thread
is started. -/
theorem c6_conditional_setup_registers_iff
    (model : Model) (userInput : String) (params : Params) (ctx : Context)
    (st : MCState) (now : String) :
    (∀ e, model (mcCondSetupPrompt userInput params.protocol_name
          (mcEffectiveCondition params userInput) (params.device.getD "")
          (params.parameter.getD "") (params.threshold.getD "") ctx.system_state) =
        Except.error e →
      (mcSetupConditionalExecution model userInput params ctx st now).state = st ∧
      ∀ m, Effect.threadStarted m ∉
        (mcSetupConditionalExecution model userInput params ctx st now).effects) ∧
    (∀ resp, model (mcCondSetupPrompt userInput params.protocol_name
          (mcEffectiveCondition params userInput) (params.device.getD "")
          (params.parameter.getD "") (params.threshold.getD "") ctx.system_state) =
        Except.ok resp →
      ((pyTruthy params.protocol_name = true ∧ mcEffectiveCondition params userInput ≠ "") →
        dmem (mcSetupConditionalExecution model userInput params ctx st now).state.active_monitors
            ("conditional_" ++ params.protocol_name.getD "" ++ "_" ++ now) = true ∧
        Effect.threadStarted ("conditional_" ++ params.protocol_name.getD "" ++ "_" ++ now) ∈
          (mcSetupConditionalExecution model userInput params ctx st now).effects) ∧
      (¬ (pyTruthy params.protocol_name = true ∧ mcEffectiveCondition params userInput ≠ "") →
        (mcSetupConditionalExecution model userInput params ctx st now).state = st ∧
        ∀ m, Effect.threadStarted m ∉
          (mcSetupConditionalExecution model userInput params ctx st now).effects)) := by
  constructor
  · intro e he
    simp [mcSetupConditionalExecution, he]
  · intro resp hresp
    constructor
    · intro hboth
      simp [mcSetupConditionalExecution, hresp, hboth.1, hboth.2, mcCreateConditionalMonitor,
        dmem, dget_dinsert_self]
    · intro hnot
      by_cases h1 : pyTruthy params.protocol_name = true
      · have h2 : mcEffectiveCondition params userInput = "" := by
          by_contra h2
          exact hnot ⟨h1, h2⟩
        rw [h2] at hresp
        simp [mcSetupConditionalExecution, hresp, h2]
      · have h1f : pyTruthy params.protocol_name = false := by
          simpa using h1
        simp [mcSetupConditionalExecution, hresp, h1f]

/-- C6 counterexample: a protocol name and a condition are both present, yet
because the model call raises, no monitor is registered and no loop started —
the registry stays empty, refuting the claim's unconditional `if` direction. -/
theorem c6_counterexample :
    pyTruthy ({ protocol_name := some "P", condition := some "stop when pressure<1e-9" } :
        Params).protocol_name = true ∧
    mcEffectiveCondition
        { protocol_name := some "P", condition := some "stop when pressure<1e-9" } "run P" ≠ "" ∧
    (mcSetupConditionalExecution errModel "run P"
        { protocol_name := some "P", condition := some "stop when pressure<1e-9" }
        {} {} "120000").state.active_monitors = [] ∧
    (∀ m, Effect.threadStarted m ∉
      (mcSetupConditionalExecution errModel "run P"
        { protocol_name := some "P", condition := some "stop when pressure<1e-9" }
        {} {} "120000").effects) := by
  refine ⟨by decide, by decide, by decide, ?_⟩
  intro m
  simp [mcSetupConditionalExecution, errModel]

/-- C7: every conditional monitor created for protocol `P` gets an identifier
containing the substrings `conditional` and `P`, and immediately after
creation that identifier is a key of the listing `get_active_monitors`
returns. -/
theorem c7_conditional_monitor_id
    (protocolName condition : String) (st : MCState) (now : String) :
    (∃ a b, (mcCreateConditionalMonitor protocolName condition st now).1 =
      a ++ "conditional" ++ b) ∧
    (∃ a b, (mcCreateConditionalMonitor protocolName condition st now).1 =
      a ++ protocolName ++ b) ∧
    dmem (mcGetActiveMonitors (mcCreateConditionalMonitor protocolName condition st now).2.1)
      (mcCreateConditionalMonitor protocolName condition st now).1 = true := by
  refine ⟨⟨"", "_" ++ protocolName ++ "_" ++ now, ?_⟩,
          ⟨"conditional_", "_" ++ now, ?_⟩, ?_⟩
  · show "conditional_" ++ protocolName ++ "_" ++ now =
      "" ++ "conditional" ++ ("_" ++ protocolName ++ "_" ++ now)
    rw [String.empty_append]
    rw [show ("conditional_" : String) = "conditional" ++ "_" from rfl]
    simp only [String.append_assoc]
  · show "conditional_" ++ protocolName ++ "_" ++ now =
      "conditional_" ++ protocolName ++ ("_" ++ now)
    simp [String.append_assoc]
  · simp [mcCreateConditionalMonitor, mcGetActiveMonitors, dictCopy_eq, dmem,
      dget_dinsert_self]

/-- C8: stopping with no monitor identifier while exactly two monitors are
active empties the registry and returns the stop-all confirmation listing
both identifiers (each identifier occurs in the message). -/
theorem c8_stop_all_two_monitors
    (userInput : String) (params : Params) (ctx : Context)
    (id1 id2 : String) (r1 r2 : MonitorRecord) (th : PyDict Unit)
    (hq : params.monitor_id.getD "" = "") :
    (mcStopMonitoring userInput params ctx ⟨[(id1, r1), (id2, r2)], th⟩).state.active_monitors
      = [] ∧
    (mcStopMonitoring userInput params ctx ⟨[(id1, r1), (id2, r2)], th⟩).response =
      "🛑 Stopped all monitoring tasks: " ++ pyListRepr [id1, id2] ∧
    (∃ a b, (mcStopMonitoring userInput params ctx ⟨[(id1, r1), (id2, r2)], th⟩).response =
      a ++ id1 ++ b) ∧
    (∃ a b, (mcStopMonitoring userInput params ctx ⟨[(id1, r1), (id2, r2)], th⟩).response =
      a ++ id2 ++ b) := by
  have hresp : (mcStopMonitoring userInput params ctx ⟨[(id1, r1), (id2, r2)], th⟩).response =
      "🛑 Stopped all monitoring tasks: " ++ pyListRepr [id1, id2] := by
    simp [mcStopMonitoring, hq, dictTruthy, dkeys]
  refine ⟨?_, hresp, ?_, ?_⟩
  · simp only [mcStopMonitoring, hq]
    simp [dictTruthy, dkeys, mcStopMonitor_cons_eq]
  · refine ⟨"🛑 Stopped all monitoring tasks: " ++ "[" ++ "'",
      "'" ++ ", " ++ "'" ++ id2 ++ "'" ++ "]", ?_⟩
    rw [hresp]
    simp only [pyListRepr, joinSep, pyRepr, List.map_cons, List.map_nil,
      String.append_assoc]
  · refine ⟨"🛑 Stopped all monitoring tasks: " ++ "[" ++ "'" ++ id1 ++ "'" ++ ", " ++ "'",
      "'" ++ "]", ?_⟩
    rw [hresp]
    simp only [pyListRepr, joinSep, pyRepr, List.map_cons, List.map_nil,
      String.append_assoc]

/-- C8 witness: stopping all with two registered monitors `m1`, `m2` leaves
the registry empty. -/
theorem c8_witness :
    (mcStopMonitoring "stop all monitoring" {} {}
        ⟨[("m1", sampleMonitorRecord), ("m2", sampleMonitorRecord)], []⟩).state.active_monitors
      = [] :=
  (c8_stop_all_two_monitors "stop all monitoring" {} {} "m1" "m2"
    sampleMonitorRecord sampleMonitorRecord [] rfl).1

/-- C9: when the protocol map is non-empty and the model call raises, the
`_list_protocols` handler returns the deterministic fallback containing the
bare bullet list of every protocol name; in particular the result is never
the router's generic apology. -/
theorem c9_list_protocols_fallback
    (model : Model) (userInput : String) (params : Params) (ctx : Context) (e : String)
    (hne : dictTruthy ctx.system_state.protocols = true)
    (herr : model (paListPrompt userInput ctx.system_state) = Except.error e) :
    (paListProtocols model userInput params ctx).response =
      "📋 **Available Protocols (" ++ toString ctx.system_state.protocols.length
        ++ " found):**\n\n" ++ paProtocolBulletList ctx.system_state.protocols
        ++ "\n\nNote: Error occurred while getting detailed information: " ++ e ∧
    (∃ a b, (paListProtocols model userInput params ctx).response =
      a ++ paProtocolBulletList ctx.system_state.protocols ++ b) ∧
    (∀ e2, (paListProtocols model userInput params ctx).response ≠ paGenericApology e2) := by
  have hresp : (paListProtocols model userInput params ctx).response =
      "📋 **Available Protocols (" ++ toString ctx.system_state.protocols.length
        ++ " found):**\n\n" ++ paProtocolBulletList ctx.system_state.protocols
        ++ "\n\nNote: Error occurred while getting detailed information: " ++ e := by
    simp [paListProtocols, hne, herr, paProtocolBulletList, dkeys]
  refine ⟨hresp, ?_, ?_⟩
  · refine ⟨"📋 **Available Protocols (" ++ toString ctx.system_state.protocols.length
      ++ " found):**\n\n",
      "\n\nNote: Error occurred while getting detailed information: " ++ e, ?_⟩
    rw [hresp]
    simp only [String.append_assoc]
  · intro e2 hcontra
    rw [hresp] at hcontra
    have h1 := congrArg (fun s => s.data.head?) hcontra
    have hA : ("📋 **Available Protocols (" : String).data.head? = some '📋' := rfl
    have hB : ("I encountered an error while processing your protocol request: " :
        String).data.head? = some 'I' := rfl
    simp [paGenericApology, String.data_append, List.head?_append, hA, hB] at h1

/-- C9 witness: with one loaded protocol and a model that raises, the
returned text is the deterministic fallback. -/
theorem c9_witness :
    (paListProtocols errModel "list protocols" {} sampleContext).response =
      "📋 **Available Protocols (" ++ toString sampleContext.system_state.protocols.length
        ++ " found):**\n\n" ++ paProtocolBulletList sampleContext.system_state.protocols
        ++ "\n\nNote: Error occurred while getting detailed information: " ++ "model offline" :=
  (c9_list_protocols_fallback errModel "list protocols" {} sampleContext "model offline"
    rfl rfl).1

/-- C10: `get_active_monitors` returns a fresh copy of the registry: viewed
through the cell store, the reference it hands out is distinct from the
agent's own registry cell, that fresh cell holds the registry's entries, and
any mutation the caller performs through the returned reference leaves the
cell behind `active_monitors` unchanged. -/
theorem c10_get_active_monitors_is_copy
    (a : MCHeapAgent) (d : PyDict MonitorRecord)
    (h : a.active_monitors_ref < a.heap.length) :
    (heapGetActiveMonitors a).2 ≠ a.active_monitors_ref ∧
    ((heapGetActiveMonitors a).1)[(heapGetActiveMonitors a).2]? =
      some ((a.heap[a.active_monitors_ref]?).getD []) ∧
    (heapWriteDict (heapGetActiveMonitors a).1 (heapGetActiveMonitors a).2 d)[
        a.active_monitors_ref]? =
      a.heap[a.active_monitors_ref]? := by
  refine ⟨?_, ?_, ?_⟩
  · exact fun hc => absurd (hc ▸ h) (lt_irrefl _)
  · show (a.heap ++ [dictCopy ((a.heap[a.active_monitors_ref]?).getD [])])[a.heap.length]? = _
    rw [List.getElem?_append_right (le_refl _)]
    simp [dictCopy_eq]
  · show ((a.heap ++ [dictCopy ((a.heap[a.active_monitors_ref]?).getD [])]).set
      a.heap.length d)[a.active_monitors_ref]? = a.heap[a.active_monitors_ref]?
    rw [List.getElem?_set_ne (Nat.ne_of_gt h)]
    rw [List.getElem?_append, if_pos h]

/-- C10 witness: emptying the dictionary returned for a one-cell agent leaves
the agent's registry cell unchanged. -/
theorem c10_witness :
    (heapWriteDict (heapGetActiveMonitors sampleHeapAgent).1
        (heapGetActiveMonitors sampleHeapAgent).2 [])[sampleHeapAgent.active_monitors_ref]? =
      sampleHeapAgent.heap[sampleHeapAgent.active_monitors_ref]? :=
  (c10_get_active_monitors_is_copy sampleHeapAgent [] (by decide)).2.2
